import Mathlib

/-!
Shallow embedding of `src/apex_player/main.py` (Discord_Apex).

The program is a Discord bot that polls the Apex Legends stats API and
mirrors the result into the bot's presence text, nickname and avatar.
We model:
  * parsed JSON values (as produced by `response.json()`), with Python
    `dict.get` semantics (a `.get` on a non-dict raises, modelled by
    `Option.none`);
  * the field extraction of `update_stats_task` lines 73-80;
  * Python string formatting used at line 84, in particular the `:,`
    thousands-separator format for integers;
  * the whole poll cycle `update_stats_task` as a pure function from an
    oracle environment (HTTP status/body, list of joined guilds, and
    whether the Discord calls succeed) and the bot's mutable memory
    (`last_known_name`, `last_known_score`) to the new memory plus the
    list of observable side effects (API calls and log lines), in the
    order the code performs them;
  * `parse_player_configs` over an environment given as an association
    list (Python `dict(os.environ)`), including the two `raise` points.

Exception *message texts* coming from the Python runtime or libraries
(e.g. the `str(e)` of an `AttributeError`) are abstracted as opaque
strings carried in the environment or fixed placeholders; everything
else (control flow, state updates, which calls are issued, the f-string
log texts built by the program itself) is translated directly from the
source.
-/

namespace Apex

mutual
/-- A parsed JSON value, as produced by Python's `response.json()`.
Python `None` and JSON `null` are the same value, so the bot attribute
`self.last_known_name = None` is represented by `Json.null` as well.
Object fields are an insertion-ordered key/value list (Python dicts
from `json.loads` have unique keys). -/
inductive Json where
  | null
  | str (s : String)
  | num (n : Int)
  | obj (fields : JFields)
deriving DecidableEq
inductive JFields where
  | nil
  | cons (key : String) (val : Json) (rest : JFields)
deriving DecidableEq
end

/-- Key lookup in a JSON object's field list (first match; keys are
unique after JSON parsing). -/
def JFields.lookup : JFields → String → Option Json
  | .nil, _ => none
  | .cons k v rest, key => if k = key then some v else rest.lookup key

/-- Python `x.get(key, default)`: defined when `x` is a dict, raises
`AttributeError` (modelled as `none`) otherwise. -/
def pyDictGet : Json → String → Json → Option Json
  | .obj fs, key, dflt => some ((fs.lookup key).getD dflt)
  | _, _, _ => none

/-- The five loosely-typed values pulled out of the API response by
`update_stats_task` (lines 73-80); each is whatever JSON value sat at
the path, or the code's default. -/
structure RawSnapshot where
  player_name : Json
  rank_score : Json
  rank_name : Json
  rank_div : Json
  rank_img_url : Json
deriving DecidableEq

/-- Lines 73-80 of `update_stats_task`:
`global_info = data.get('global', {})`, `rank_info = global_info.get('rank', {})`,
then the five field reads with defaults `'Unknown'`, `0`, `'Rookie'`, `0`,
`None`.  `none` means one of the `.get` calls raised (receiver not a
dict), which the surrounding `except` catches: no snapshot this cycle. -/
def extractRaw (data : Json) : Option RawSnapshot := do
  let global_info ← pyDictGet data "global" (Json.obj JFields.nil)
  let rank_info ← pyDictGet global_info "rank" (Json.obj JFields.nil)
  let player_name ← pyDictGet global_info "name" (Json.str "Unknown")
  let rank_score ← pyDictGet rank_info "rankScore" (Json.num 0)
  let rank_name ← pyDictGet rank_info "rankName" (Json.str "Rookie")
  let rank_div ← pyDictGet rank_info "rankDiv" (Json.num 0)
  let rank_img_url ← pyDictGet rank_info "rankImg" Json.null
  pure ⟨player_name, rank_score, rank_name, rank_div, rank_img_url⟩

mutual
/-- Python `repr`/`str` of a parsed-JSON value (used by f-string
interpolation of a non-string value). -/
def Json.pyRepr : Json → String
  | .null => "None"
  | .str s => "\x27" ++ s ++ "\x27"
  | .num n => toString n
  | .obj fs => "\x7b" ++ fs.reprFields ++ "\x7d"
def JFields.reprFields : JFields → String
  | .nil => ""
  | .cons k v .nil => "\x27" ++ k ++ "\x27: " ++ v.pyRepr
  | .cons k v rest => "\x27" ++ k ++ "\x27: " ++ v.pyRepr ++ ", " ++ rest.reprFields
end

/-- Python `str(x)` as used by f-string interpolation `f"{x}"`. -/
def pyStr : Json → String
  | .str s => s
  | .null => "None"
  | .num n => toString n
  | .obj fs => "\x7b" ++ fs.reprFields ++ "\x7d"

/-- Insert a `,` before every further group of three digits; the input
is the digit list least-significant first, `cnt` counts digits emitted
since the last separator. -/
def commaRevAux : List Char → Nat → List Char
  | [], _ => []
  | c :: rest, cnt =>
    if cnt = 3 then ',' :: c :: commaRevAux rest 1
    else c :: commaRevAux rest (cnt + 1)

/-- Python `f"{n:,}"` for an `int`: decimal digits grouped in threes by
commas, with a leading `-` for negatives. -/
def intComma (n : Int) : String :=
  let ds := (toString n.natAbs).data
  let grouped := (commaRevAux ds.reverse 0).reverse
  (if n < 0 then "-" else "") ++ String.mk grouped

/-- Python `format(x, ",")`: defined for ints, raises (`none`) for the
other JSON value kinds (`TypeError` for `None`/dict, `ValueError` for
`str`). -/
def pyFormatComma : Json → Option String
  | .num n => some (intComma n)
  | _ => none

/-- Line 84: `status_text = f"{rank_name} {rank_div} - {rank_score:,} RP"`.
`none` when the `:,` format raises because `rank_score` is not a number. -/
def formatStatus (rank_name rank_div rank_score : Json) : Option String :=
  (pyFormatComma rank_score).map fun score =>
    pyStr rank_name ++ " " ++ pyStr rank_div ++ " - " ++ score ++ " RP"

/-- Python truthiness of a parsed-JSON value (line 101,
`if rank_img_url and score_changed`). -/
def pyTruthy : Json → Bool
  | .null => false
  | .str s => s ≠ ""
  | .num n => n ≠ 0
  | .obj fs => fs ≠ JFields.nil

/-- The mutable per-bot memory set up in `__init__` (lines 54-55):
`self.last_known_name = None`, `self.last_known_score = None`.
`last_known_score` actually stores the last status *text* (line 91).
Stored values are Python values, so `Json` with `null` for `None`. -/
structure PollState where
  last_known_name : Json
  last_known_score : Json
deriving DecidableEq

/-- Fresh state after `__init__`. -/
def PollState.init : PollState := ⟨Json.null, Json.null⟩

/-- Outcome of a `guild.me.edit(nick=...)` call: succeeds, raises
`discord.Forbidden`, or raises some other exception with text `e`. -/
inductive EditOutcome where
  | ok
  | forbidden
  | err (e : String)
deriving DecidableEq

/-- One joined guild, as seen by `update_all_nicknames`: its `.name`,
the bot member's current nick (`guild.me.nick`, `None` possible), and
what the edit call would do there. -/
structure Guild where
  name : String
  me_nick : Option String
  edit_result : EditOutcome
deriving DecidableEq

/-- Observable side effects of one poll cycle, in program order:
Discord/HTTP calls and the log lines the code emits. -/
inductive Effect where
  | presenceUpdate (text : String)
  | nickEdit (guild : String) (nick : Json)
  | avatarDownload (url : Json)
  | avatarUpload
  | logInfo (msg : String)
  | logWarning (msg : String)
  | logError (msg : String)
deriving DecidableEq

/-- Oracle environment for one cycle: the stats API response, the
joined guilds, and how the fallible external calls behave.  Exception
texts (`str(e)`) of failing library calls are opaque strings. -/
structure CycleEnv where
  status : Nat
  json : Json
  text : String
  guilds : List Guild
  presence_ok : Bool
  presence_err : String
  avatar_status : Nat
  avatar_decode_ok : Bool
  avatar_decode_err : String
  avatar_upload_ok : Bool
  avatar_upload_err : String
deriving DecidableEq

def statusUpdatedMsg (botName st : String) : String :=
  "[" ++ botName ++ "] Status Updated: " ++ st

def nickUpdatingMsg (botName : String) (new_nick : Json) : String :=
  "[" ++ botName ++ "] Updating nickname to \x27" ++ pyStr new_nick ++ "\x27..."

def forbiddenMsg (botName gname : String) : String :=
  "[" ++ botName ++ "] Missing permissions to change nickname in guild: " ++ gname

def nickFailMsg (botName gname e : String) : String :=
  "[" ++ botName ++ "] Failed to change nickname in " ++ gname ++ ": " ++ e

def scoreChangedMsg (botName : String) : String :=
  "[" ++ botName ++ "] Score changed; updating avatar to current rank badge..."

def profileUpdatedMsg (botName : String) : String :=
  "[" ++ botName ++ "] Profile Image updated to Ranked Badge."

def imgDownloadFailMsg (botName : String) (status : Nat) : String :=
  "[" ++ botName ++ "] Failed to download image: " ++ toString status

def avatarFailMsg (botName e : String) : String :=
  "[" ++ botName ++ "] Failed to update avatar: " ++ e

def rateLimitMsg (botName : String) : String :=
  "[" ++ botName ++ "] Rate Limit Hit (429). Waiting..."

def apiFailedMsg (botName : String) (status : Nat) (text : String) : String :=
  "[" ++ botName ++ "] API Failed: " ++ toString status ++ " - " ++ text

def mainLoopErrMsg (botName e : String) : String :=
  "[" ++ botName ++ "] Error in main loop: " ++ e

/-- Placeholder for the `str(e)` of the `AttributeError` raised when a
`.get` receiver is not a dict (lines 73-80); text abstracted. -/
def attrErrText : String := "AttributeError"

/-- Placeholder for the `str(e)` of the `TypeError`/`ValueError` raised
by `f"{rank_score:,}"` on a non-int (line 84); text abstracted. -/
def fmtErrText : String := "format error"

/-- `guild.me.nick` as a Python value, for the `!=` against `new_nick`
at line 120 (`None` compares equal only to `None`). -/
def nickJson : Option String → Json
  | none => Json.null
  | some s => Json.str s

/-- One iteration of the `for guild in self.guilds` loop (lines
117-125): if the bot's nick in `g` differs from `new_nick`, call
`guild.me.edit(nick=new_nick)`; `discord.Forbidden` is logged as a
warning, any other exception as an error; either way the loop
continues. -/
def nick_guild_effects (botName : String) (new_nick : Json) (g : Guild) : List Effect :=
  if nickJson g.me_nick ≠ new_nick then
    Effect.nickEdit g.name new_nick ::
      (match g.edit_result with
       | .ok => []
       | .forbidden => [Effect.logWarning (forbiddenMsg botName g.name)]
       | .err e => [Effect.logError (nickFailMsg botName g.name e)])
  else []

/-- The whole `for guild in self.guilds` loop (lines 117-125). -/
def nick_loop_effects (botName : String) (new_nick : Json) (guilds : List Guild) :
    List Effect :=
  (guilds.map (nick_guild_effects botName new_nick)).flatten

/-- `update_all_nicknames` (lines 114-125): log, then run the per-guild
loop over every joined guild.  Returns the effect trace; the method
itself never raises. -/
def update_all_nicknames (botName : String) (guilds : List Guild) (new_nick : Json) :
    List Effect :=
  Effect.logInfo (nickUpdatingMsg botName new_nick) :: nick_loop_effects botName new_nick guilds

/-- `update_avatar` (lines 127-150): GET the badge URL; on 200, decode,
convert to RGBA, re-encode as PNG (`avatar_decode_ok`), then upload via
`self.user.edit(avatar=...)` (`avatar_upload_ok`); every failure is
caught and logged, nothing propagates. -/
def update_avatar (botName : String) (env : CycleEnv) (url : Json) : List Effect :=
  Effect.avatarDownload url ::
    (if env.avatar_status = 200 then
      if env.avatar_decode_ok then
        Effect.avatarUpload ::
          (if env.avatar_upload_ok then [Effect.logInfo (profileUpdatedMsg botName)]
           else [Effect.logError (avatarFailMsg botName env.avatar_upload_err)])
      else [Effect.logError (avatarFailMsg botName env.avatar_decode_err)]
    else [Effect.logError (imgDownloadFailMsg botName env.avatar_status)])

/-- One iteration of `update_stats_task` (lines 64-112): the whole
`try` body plus the catch-all `except`.  Returns the new memory and the
effect trace.  On status 200 the five fields are extracted, the status
text is formatted, and the three update phases run in order; a raising
`change_presence` (modelled by `presence_ok = false`) jumps to the
outer `except`, abandoning the rest of the cycle with the memory as it
was at that point. -/
def update_stats_task (botName : String) (env : CycleEnv) (s : PollState) :
    PollState × List Effect :=
  if env.status = 200 then
    match extractRaw env.json with
    | none => (s, [Effect.logError (mainLoopErrMsg botName attrErrText)])
    | some raw =>
      match formatStatus raw.rank_name raw.rank_div raw.rank_score with
      | none => (s, [Effect.logError (mainLoopErrMsg botName fmtErrText)])
      | some status_text =>
        let score_changed := Json.str status_text ≠ s.last_known_score
        if score_changed ∧ ¬ env.presence_ok then
          (s, [Effect.presenceUpdate status_text,
               Effect.logError (mainLoopErrMsg botName env.presence_err)])
        else
          let s1 := if score_changed
            then { s with last_known_score := Json.str status_text } else s
          let e1 := if score_changed
            then [Effect.presenceUpdate status_text,
                  Effect.logInfo (statusUpdatedMsg botName status_text)]
            else []
          let name_changed := raw.player_name ≠ s1.last_known_name
          let s2 := if name_changed
            then { s1 with last_known_name := raw.player_name } else s1
          let e2 := if name_changed
            then update_all_nicknames botName env.guilds raw.player_name else []
          let e3 := if pyTruthy raw.rank_img_url ∧ score_changed
            then Effect.logInfo (scoreChangedMsg botName) ::
              update_avatar botName env raw.rank_img_url
            else []
          (s2, e1 ++ e2 ++ e3)
  else if env.status = 429 then
    (s, [Effect.logWarning (rateLimitMsg botName)])
  else
    (s, [Effect.logError (apiFailedMsg botName env.status env.text)])

/-- Is this effect a `change_presence` call? -/
def Effect.isPresence : Effect → Bool
  | .presenceUpdate _ => true
  | _ => false

/-- Is this effect a `guild.me.edit(nick=...)` call? -/
def Effect.isNickEdit : Effect → Bool
  | .nickEdit _ _ => true
  | _ => false

/-- Is this effect the badge-image GET? -/
def Effect.isAvatarDownload : Effect → Bool
  | .avatarDownload _ => true
  | _ => false

/-- Is this effect the `user.edit(avatar=...)` upload call? -/
def Effect.isAvatarUpload : Effect → Bool
  | .avatarUpload => true
  | _ => false

/-- Is this effect a `logging.warning` line? -/
def Effect.isWarningLog : Effect → Bool
  | .logWarning _ => true
  | _ => false

/-- Is this effect a `logging.error` line? -/
def Effect.isErrorLog : Effect → Bool
  | .logError _ => true
  | _ => false

/-- The end-to-end scenario input
`{global:{name:"Shroud", rank:{rankScore:15000, rankName:"Master",
rankDiv:1, rankImg:"http://x/badge.png"}}}`. -/
def docShroud : Json :=
  Json.obj (.cons "global"
    (Json.obj (.cons "name" (Json.str "Shroud")
      (.cons "rank"
        (Json.obj (.cons "rankScore" (Json.num 15000)
          (.cons "rankName" (Json.str "Master")
            (.cons "rankDiv" (Json.num 1)
              (.cons "rankImg" (Json.str "http://x/badge.png") .nil)))))
        .nil)))
    .nil)

/-- A cycle environment where the stats request returned 200 with body
`j`, every Discord call succeeds, and the badge download returns 200
and decodes fine. -/
def happyEnv (j : Json) (guilds : List Guild) : CycleEnv :=
  { status := 200, json := j, text := "", guilds := guilds,
    presence_ok := true, presence_err := "",
    avatar_status := 200, avatar_decode_ok := true, avatar_decode_err := "",
    avatar_upload_ok := true, avatar_upload_err := "" }



/-- Configuration record for one tracked player (the `PlayerConfig`
dataclass, lines 34-40). -/
structure PlayerConfig where
  name : String
  discord_token : String
  player_uid : String
  startup_delay : Int
deriving DecidableEq

/-- A log line emitted by `parse_player_configs`. -/
inductive LogEvent where
  | info (msg : String)
  | warning (msg : String)
  | fatal (msg : String)
deriving DecidableEq

/-- Result of `parse_player_configs`: the returned list, or the message
of the exception it raised, each with the log lines emitted. -/
inductive ParseResult where
  | ok (configs : List PlayerConfig) (logs : List LogEvent)
  | error (msg : String) (logs : List LogEvent)
deriving DecidableEq

/-- Decimal digit run to a value, `none` if empty or non-digits
(Python `int` underscore grouping is not modelled; no claim uses it). -/
def digitsToNat (ds : List Char) : Option Nat :=
  if ds ≠ [] ∧ ds.all Char.isDigit then
    some (ds.foldl (fun a c => a * 10 + (c.toNat - 48)) 0)
  else none

/-- Whitespace stripped by Python `int()` around the literal. -/
def isPySpace (c : Char) : Bool :=
  c = ' ' || c = '\t' || c = '\n' || c = '\r' || c = '\x0b' || c = '\x0c'

/-- Python `int(s)` for a string: optional surrounding whitespace,
optional sign, decimal digits; raises `ValueError` (`none`) otherwise. -/
def pyInt (s : String) : Option Int :=
  match ((s.data.dropWhile isPySpace).reverse.dropWhile isPySpace).reverse with
  | '-' :: ds => (digitsToNat ds).map fun n => -(n : Int)
  | '+' :: ds => (digitsToNat ds).map fun n => (n : Int)
  | ds => (digitsToNat ds).map fun n => (n : Int)

/-- Fuel-driven core of Python `str.replace`: replace each leftmost
non-overlapping occurrence of `pat`.  Each step consumes one character,
so fuel = input length suffices; the `0, l => l` row is unreachable then. -/
def replaceFuel (pat rep : List Char) : Nat → List Char → List Char
  | _, [] => []
  | 0, l => l
  | fuel + 1, c :: cs =>
    if !pat.isEmpty && pat.isPrefixOf (c :: cs) then
      rep ++ replaceFuel pat rep fuel (cs.drop (pat.length - 1))
    else c :: replaceFuel pat rep fuel cs

/-- Python `s.replace(pat, rep)` (for nonempty `pat`, which is the only
use: line 172 replaces `'DISCORD_BOT_TOKEN_'`). -/
def pyReplace (s pat rep : String) : String :=
  String.mk (replaceFuel pat.data rep.data s.data.length s.data)

/-- ASCII uppercasing of one character (Python `str.upper` restricted
to ASCII, which covers environment variable names). -/
def asciiUpper (c : Char) : Char :=
  if c.isLower then Char.ofNat (c.toNat - 32) else c

/-- Line 172: `token_key.replace('DISCORD_BOT_TOKEN_', '').upper()`
(ASCII uppercasing; env var names here are ASCII). -/
def derived_name (token_key : String) : String :=
  String.mk ((pyReplace token_key "DISCORD_BOT_TOKEN_" "").data.map asciiUpper)

/-- Python `s.startswith(pre)`. -/
def pyStartsWith (s pre : String) : Bool :=
  pre.data.isPrefixOf s.data

/-- Line 168's dict-comprehension filter: keys starting with
`DISCORD_BOT_TOKEN_`, excluding the reserved `DISCORD_BOT_TOKEN_MAP`. -/
def is_token_key (k : String) : Bool :=
  pyStartsWith k "DISCORD_BOT_TOKEN_" && k != "DISCORD_BOT_TOKEN_MAP"

/-- The `player_tokens` dict of line 168, in environment order. -/
def token_keys (env : List (String × String)) : List (String × String) :=
  env.filter fun kv => is_token_key kv.1

/-- Does the token key have a companion `PLAYER_UID_<suffix>` entry
that is Python-truthy (present and non-empty)?  Line 178 `if not
player_uid` treats a missing key and an empty value alike. -/
def has_uid (env : List (String × String)) (token_key : String) : Bool :=
  match env.lookup ("PLAYER_UID_" ++ derived_name token_key) with
  | some u => u != ""
  | none => false

/-- Line 184's argument: `env_vars.get(delay_key, '0')`. -/
def delay_str (env : List (String × String)) (token_key : String) : String :=
  (env.lookup ("STARTUP_DELAY_" ++ derived_name token_key)).getD "0"

def missingUidMsg (player_name : String) : String :=
  "Missing PLAYER_UID_" ++ player_name ++ " for player " ++ player_name ++ ", skipping..."

def loadedMsg (player_name player_uid : String) (delay : Int) : String :=
  "Loaded config for player: " ++ player_name ++ " (UID: " ++ player_uid ++
    ", delay: " ++ toString delay ++ "s)"

def noConfigLogMsg : String :=
  "No player configurations found! Ensure DISCORD_BOT_TOKEN_* and PLAYER_UID_* are set in .env"

def noConfigRaiseMsg : String := "No player configurations found"

/-- Message of the `ValueError` raised by `int()` on a bad literal. -/
def intErrMsg (s : String) : String :=
  "invalid literal for int() with base 10: \x27" ++ s ++ "\x27"

/-- The `for token_key, token_value in player_tokens.items()` loop of
`parse_player_configs` (lines 170-192) plus the final empty check
(lines 194-196), with the accumulated configs and log lines explicit. -/
def parse_go (env : List (String × String)) :
    List (String × String) → List PlayerConfig → List LogEvent → ParseResult
  | [], configs, logs =>
    if configs.isEmpty then
      ParseResult.error noConfigRaiseMsg (logs ++ [LogEvent.fatal noConfigLogMsg])
    else ParseResult.ok configs logs
  | (token_key, token_value) :: rest, configs, logs =>
    let player_name := derived_name token_key
    match env.lookup ("PLAYER_UID_" ++ player_name) with
    | none =>
      parse_go env rest configs (logs ++ [LogEvent.warning (missingUidMsg player_name)])
    | some player_uid =>
      if player_uid = "" then
        parse_go env rest configs (logs ++ [LogEvent.warning (missingUidMsg player_name)])
      else
        let dstr := delay_str env token_key
        match pyInt dstr with
        | none => ParseResult.error (intErrMsg dstr) logs
        | some d =>
          parse_go env rest
            (configs ++ [⟨player_name, token_value, player_uid, d⟩])
            (logs ++ [LogEvent.info (loadedMsg player_name player_uid d)])

/-- `parse_player_configs` (lines 160-198) over the environment
`dict(os.environ)`, given as an insertion-ordered association list with
unique keys. -/
def parse_player_configs (env : List (String × String)) : ParseResult :=
  parse_go env (token_keys env) [] []

/-- The start of `main()` (lines 210-213): `parse_player_configs` runs
before the shared HTTP session is created and before any bot starts, so
a raise here terminates startup with no network activity. -/
def main_startup (env : List (String × String)) : Except String (List PlayerConfig) :=
  match parse_player_configs env with
  | .ok cs _ => .ok cs
  | .error m _ => .error m

/-- Is this log line a `logging.warning`? -/
def LogEvent.isWarning : LogEvent → Bool
  | .warning _ => true
  | _ => false



/-! ### Helper lemmas -/

theorem nick_guild_counts (b : String) (n : Json) (g : Guild) :
    (nick_guild_effects b n g).countP Effect.isPresence = 0 ∧
    (nick_guild_effects b n g).countP Effect.isAvatarDownload = 0 ∧
    (nick_guild_effects b n g).countP Effect.isAvatarUpload = 0 ∧
    (nick_guild_effects b n g).countP Effect.isNickEdit
      = (if nickJson g.me_nick ≠ n then 1 else 0) := by
  rcases g with ⟨gn, nk, er⟩
  unfold nick_guild_effects
  cases er <;> split_ifs <;>
    simp_all [List.countP_cons, Effect.isPresence, Effect.isAvatarDownload,
      Effect.isAvatarUpload, Effect.isNickEdit]

theorem nick_loop_counts (b : String) (n : Json) (gs : List Guild) :
    (nick_loop_effects b n gs).countP Effect.isPresence = 0 ∧
    (nick_loop_effects b n gs).countP Effect.isAvatarDownload = 0 ∧
    (nick_loop_effects b n gs).countP Effect.isAvatarUpload = 0 ∧
    (nick_loop_effects b n gs).countP Effect.isNickEdit
      = gs.countP (fun g => nickJson g.me_nick != n) := by
  induction gs with
  | nil => simp [nick_loop_effects]
  | cons g gs ih =>
    have hg := nick_guild_counts b n g
    simp only [nick_loop_effects, List.map_cons, List.flatten_cons, List.countP_append,
      List.countP_cons] at *
    refine ⟨by omega, by omega, by omega, ?_⟩
    rcases hg with ⟨-, -, -, hg4⟩
    rcases ih with ⟨-, -, -, ih4⟩
    by_cases hd : nickJson g.me_nick = n <;> simp_all [bne_iff_ne]
    all_goals omega

theorem update_all_nicknames_counts (b : String) (gs : List Guild) (n : Json) :
    (update_all_nicknames b gs n).countP Effect.isPresence = 0 ∧
    (update_all_nicknames b gs n).countP Effect.isAvatarDownload = 0 ∧
    (update_all_nicknames b gs n).countP Effect.isAvatarUpload = 0 ∧
    (update_all_nicknames b gs n).countP Effect.isNickEdit
      = gs.countP (fun g => nickJson g.me_nick != n) := by
  have h := nick_loop_counts b n gs
  simp only [update_all_nicknames, List.countP_cons] at *
  simp_all [Effect.isPresence, Effect.isAvatarDownload, Effect.isAvatarUpload,
    Effect.isNickEdit]

theorem update_avatar_counts (b : String) (env : CycleEnv) (u : Json) :
    (update_avatar b env u).countP Effect.isPresence = 0 ∧
    (update_avatar b env u).countP Effect.isNickEdit = 0 ∧
    (update_avatar b env u).countP Effect.isAvatarDownload = 1 ∧
    (update_avatar b env u).countP Effect.isAvatarUpload
      = (if env.avatar_status = 200 ∧ env.avatar_decode_ok = true then 1 else 0) := by
  unfold update_avatar
  split_ifs <;>
    simp_all [List.countP_cons, Effect.isPresence, Effect.isNickEdit,
      Effect.isAvatarDownload, Effect.isAvatarUpload]

/-- Normal form of a fully successful 200-status cycle: the memory
always ends at `⟨player_name, status_text⟩`, and the trace is the three
phases in order, each conditional on its own diff. -/
theorem cycle_200 (b : String) (env : CycleEnv) (s : PollState) (raw : RawSnapshot)
    (st : String)
    (h200 : env.status = 200) (hraw : extractRaw env.json = some raw)
    (hst : formatStatus raw.rank_name raw.rank_div raw.rank_score = some st)
    (hp : env.presence_ok = true) :
    update_stats_task b env s =
      (⟨raw.player_name, Json.str st⟩,
       (if Json.str st ≠ s.last_known_score
        then [Effect.presenceUpdate st, Effect.logInfo (statusUpdatedMsg b st)] else []) ++
       (if raw.player_name ≠ s.last_known_name
        then update_all_nicknames b env.guilds raw.player_name else []) ++
       (if pyTruthy raw.rank_img_url ∧ Json.str st ≠ s.last_known_score
        then Effect.logInfo (scoreChangedMsg b) :: update_avatar b env raw.rank_img_url
        else [])) := by
  rcases s with ⟨lname, lscore⟩
  simp only [update_stats_task, h200, hraw, hst, hp, if_true, not_true, and_false, if_false,
    reduceIte]
  by_cases hsc : Json.str st = lscore <;> by_cases hnm : raw.player_name = lname <;>
    simp_all

/-- A 200 cycle whose body makes one of the `.get` calls raise: the
catch-all logs and nothing else happens. -/
theorem cycle_200_extract_fail (b : String) (env : CycleEnv) (s : PollState)
    (h200 : env.status = 200) (hraw : extractRaw env.json = none) :
    update_stats_task b env s = (s, [Effect.logError (mainLoopErrMsg b attrErrText)]) := by
  simp [update_stats_task, h200, hraw]

/-- A 200 cycle whose `f"{rank_score:,}"` raises: the catch-all logs
and nothing else happens. -/
theorem cycle_200_format_fail (b : String) (env : CycleEnv) (s : PollState)
    (raw : RawSnapshot)
    (h200 : env.status = 200) (hraw : extractRaw env.json = some raw)
    (hst : formatStatus raw.rank_name raw.rank_div raw.rank_score = none) :
    update_stats_task b env s = (s, [Effect.logError (mainLoopErrMsg b fmtErrText)]) := by
  simp [update_stats_task, h200, hraw, hst]

/-- A 200 cycle in which neither the status text nor the display name
differs from the memory: no call is made, nothing is logged, the
memory is untouched. -/
theorem cycle_200_no_change (b : String) (env : CycleEnv) (s : PollState)
    (raw : RawSnapshot) (st : String)
    (h200 : env.status = 200) (hraw : extractRaw env.json = some raw)
    (hst : formatStatus raw.rank_name raw.rank_div raw.rank_score = some st)
    (hsc : s.last_known_score = Json.str st)
    (hnm : s.last_known_name = raw.player_name) :
    update_stats_task b env s = (s, []) := by
  simp [update_stats_task, h200, hraw, hst, hsc.symm, hnm.symm]

/-! ### Claims -/

/-- C1: On a first poll cycle with empty PollState and an HTTP 200
response whose body is `{global:{name:"Shroud", rank:{rankScore:15000,
rankName:"Master", rankDiv:1, rankImg:"http://x/badge.png"}}}`, the
update step produces the status text `"Master 1 - 15,000 RP"`, issues
exactly one presence update, one nickname update attempt per joined
server (all the external calls succeeding and no server already
showing that nickname), and one avatar download and upload. -/
theorem C1_first_cycle_scenario (botName : String) (guilds : List Guild)
    (hnick : ∀ g ∈ guilds, nickJson g.me_nick ≠ Json.str "Shroud") :
    (update_stats_task botName (happyEnv docShroud guilds) PollState.init).1.last_known_score
        = Json.str "Master 1 - 15,000 RP" ∧
    Effect.presenceUpdate "Master 1 - 15,000 RP"
        ∈ (update_stats_task botName (happyEnv docShroud guilds) PollState.init).2 ∧
    (update_stats_task botName (happyEnv docShroud guilds) PollState.init).2.countP
        Effect.isPresence = 1 ∧
    (update_stats_task botName (happyEnv docShroud guilds) PollState.init).2.countP
        Effect.isNickEdit = guilds.length ∧
    (update_stats_task botName (happyEnv docShroud guilds) PollState.init).2.countP
        Effect.isAvatarDownload = 1 ∧
    (update_stats_task botName (happyEnv docShroud guilds) PollState.init).2.countP
        Effect.isAvatarUpload = 1 := by
  have h := cycle_200 botName (happyEnv docShroud guilds) PollState.init
      ⟨Json.str "Shroud", Json.num 15000, Json.str "Master", Json.num 1,
        Json.str "http://x/badge.png"⟩
      "Master 1 - 15,000 RP" rfl
      (by decide : extractRaw docShroud = some ⟨Json.str "Shroud", Json.num 15000,
        Json.str "Master", Json.num 1, Json.str "http://x/badge.png"⟩)
      (by decide : formatStatus (Json.str "Master") (Json.num 1) (Json.num 15000)
        = some "Master 1 - 15,000 RP") rfl
  have c1 : Json.str "Master 1 - 15,000 RP" ≠ PollState.init.last_known_score := by decide
  have c2 : (⟨Json.str "Shroud", Json.num 15000, Json.str "Master", Json.num 1,
      Json.str "http://x/badge.png"⟩ : RawSnapshot).player_name
      ≠ PollState.init.last_known_name := by decide
  have c3 : pyTruthy (Json.str "http://x/badge.png")
      ∧ Json.str "Master 1 - 15,000 RP" ≠ PollState.init.last_known_score := by decide
  rw [h, if_pos c1, if_pos c2, if_pos c3]
  have hnk := update_all_nicknames_counts botName guilds (Json.str "Shroud")
  have hav := update_avatar_counts botName (happyEnv docShroud guilds)
      (Json.str "http://x/badge.png")
  have hlen : guilds.countP (fun g => nickJson g.me_nick != Json.str "Shroud")
      = guilds.length := by
    refine List.countP_eq_length.mpr fun g hg => ?_
    simpa [bne_iff_ne] using hnick g hg
  refine ⟨rfl, by simp, ?_, ?_, ?_, ?_⟩ <;>
    simp_all [List.countP_append, List.countP_cons, Effect.isPresence, Effect.isNickEdit,
      Effect.isAvatarDownload, Effect.isAvatarUpload, happyEnv]

/-- Closed witness for `C1_first_cycle_scenario` at two concrete
guilds, one of them forbidden. -/
theorem C1_first_cycle_scenario_witness :
    (update_stats_task "BOT"
      (happyEnv docShroud [⟨"G1", none, .ok⟩, ⟨"G2", some "Old", .forbidden⟩])
      PollState.init).2.countP Effect.isNickEdit = 2 :=
  (C1_first_cycle_scenario "BOT" [⟨"G1", none, .ok⟩, ⟨"G2", some "Old", .forbidden⟩]
    (by decide)).2.2.2.1

/-- C6: two consecutive cycles on the same 200 response (the first
cycle's presence call succeeding) are idempotent: the second cycle
issues zero presence calls and zero nickname calls and leaves the
memory unchanged (in fact it produces no effect at all would also
hold; stated as the claim puts it). -/
theorem C6_idempotent_second_cycle (botName : String) (env env2 : CycleEnv) (s : PollState)
    (h200 : env.status = 200) (hp : env.presence_ok = true)
    (h200b : env2.status = 200) (hj : env2.json = env.json) :
    (update_stats_task botName env2 (update_stats_task botName env s).1).2.countP
        Effect.isPresence = 0 ∧
    (update_stats_task botName env2 (update_stats_task botName env s).1).2.countP
        Effect.isNickEdit = 0 ∧
    (update_stats_task botName env2 (update_stats_task botName env s).1).1
        = (update_stats_task botName env s).1 := by
  rcases hex : extractRaw env.json with _ | raw
  · have e1 := cycle_200_extract_fail botName env s h200 hex
    have e2 := cycle_200_extract_fail botName env2 (update_stats_task botName env s).1 h200b
      (by rw [hj, hex])
    rw [e2, e1]
    simp [Effect.isPresence, Effect.isNickEdit]
  · rcases hfmt : formatStatus raw.rank_name raw.rank_div raw.rank_score with _ | st
    · have e2 := cycle_200_format_fail botName env2 (update_stats_task botName env s).1 raw
        h200b (by rw [hj, hex]) hfmt
      rw [e2]
      simp [Effect.isPresence, Effect.isNickEdit]
    · have e1 := cycle_200 botName env s raw st h200 hex hfmt hp
      have e2 := cycle_200_no_change botName env2 (update_stats_task botName env s).1 raw st
        h200b (by rw [hj, hex]) hfmt (by rw [e1]) (by rw [e1])
      rw [e2]
      simp

/-- Closed witness for `C6_idempotent_second_cycle` on the concrete
end-to-end response. -/
theorem C6_idempotent_second_cycle_witness :
    (update_stats_task "BOT" (happyEnv docShroud [])
        (update_stats_task "BOT" (happyEnv docShroud []) PollState.init).1).2.countP
        Effect.isPresence = 0 ∧
    (update_stats_task "BOT" (happyEnv docShroud [])
        (update_stats_task "BOT" (happyEnv docShroud []) PollState.init).1).2.countP
        Effect.isNickEdit = 0 ∧
    (update_stats_task "BOT" (happyEnv docShroud [])
        (update_stats_task "BOT" (happyEnv docShroud []) PollState.init).1).1
        = (update_stats_task "BOT" (happyEnv docShroud []) PollState.init).1 :=
  C6_idempotent_second_cycle "BOT" (happyEnv docShroud []) (happyEnv docShroud [])
    PollState.init rfl rfl rfl rfl

/-- The end-to-end input with a *present but empty* `rankImg`. -/
def docShroudEmptyImg : Json :=
  Json.obj (.cons "global"
    (Json.obj (.cons "name" (Json.str "Shroud")
      (.cons "rank"
        (Json.obj (.cons "rankScore" (Json.num 15000)
          (.cons "rankName" (Json.str "Master")
            (.cons "rankDiv" (Json.num 1)
              (.cons "rankImg" (Json.str "") .nil)))))
        .nil)))
    .nil)

/-- C7 counterexample: with `rankImg` present in the snapshot as the
empty string and the status text changing, the claimed iff says the
avatar update runs, but the code's `if rank_img_url and score_changed`
is Python-falsy on `""`, so no avatar download is issued. -/
theorem C7_empty_badge_counterexample :
    (extractRaw docShroudEmptyImg).map RawSnapshot.rank_img_url = some (Json.str "") ∧
    (update_stats_task "BOT" (happyEnv docShroudEmptyImg []) PollState.init).1.last_known_score
        ≠ PollState.init.last_known_score ∧
    (update_stats_task "BOT" (happyEnv docShroudEmptyImg []) PollState.init).2.countP
        Effect.isAvatarDownload = 0 := by
  decide

/-- C7 (amended): on a successful 200 cycle, the avatar update runs iff
the badge image URL is present *and non-empty* (Python truthiness) and
the formatted status text differs from the last-known status text; in
particular a display-name change with unchanged status text never
triggers an avatar update. -/
theorem C7_avatar_gating (botName : String) (env : CycleEnv) (s : PollState)
    (raw : RawSnapshot) (st : String)
    (h200 : env.status = 200) (hraw : extractRaw env.json = some raw)
    (hst : formatStatus raw.rank_name raw.rank_div raw.rank_score = some st)
    (hp : env.presence_ok = true) :
    (update_stats_task botName env s).2.countP Effect.isAvatarDownload
      = (if pyTruthy raw.rank_img_url = true ∧ Json.str st ≠ s.last_known_score
         then 1 else 0) ∧
    (Json.str st = s.last_known_score →
      (update_stats_task botName env s).2.countP Effect.isAvatarDownload = 0) := by
  rw [cycle_200 botName env s raw st h200 hraw hst hp]
  have hnk := update_all_nicknames_counts botName env.guilds raw.player_name
  have hav := update_avatar_counts botName env raw.rank_img_url
  constructor
  · split_ifs with h1 h2 h3 <;>
      simp_all [List.countP_append, List.countP_cons, Effect.isAvatarDownload]
  · intro hsc
    split_ifs <;>
      simp_all [List.countP_append, List.countP_cons, Effect.isAvatarDownload]

/-- Closed witness for `C7_avatar_gating` on the concrete end-to-end
response (badge present and non-empty, status text changed). -/
theorem C7_avatar_gating_witness :
    (update_stats_task "BOT" (happyEnv docShroud []) PollState.init).2.countP
        Effect.isAvatarDownload
      = (if pyTruthy (Json.str "http://x/badge.png") = true
            ∧ Json.str "Master 1 - 15,000 RP" ≠ PollState.init.last_known_score
         then 1 else 0) :=
  (C7_avatar_gating "BOT" (happyEnv docShroud []) PollState.init
    ⟨Json.str "Shroud", Json.num 15000, Json.str "Master", Json.num 1,
      Json.str "http://x/badge.png"⟩
    "Master 1 - 15,000 RP" rfl
    (by decide : extractRaw docShroud = some ⟨Json.str "Shroud", Json.num 15000,
      Json.str "Master", Json.num 1, Json.str "http://x/badge.png"⟩)
    (by decide) rfl).1

/-- C8: on any non-200 stats response, the cycle issues no presence,
nickname or avatar call, leaves the memory unchanged, and logs exactly
one line: a rate-limit warning for 429, otherwise one error containing
the status and the response body. -/
theorem C8_non_200_skips_cycle (botName : String) (env : CycleEnv) (s : PollState)
    (h : env.status ≠ 200) :
    (update_stats_task botName env s).1 = s ∧
    (update_stats_task botName env s).2.countP Effect.isPresence = 0 ∧
    (update_stats_task botName env s).2.countP Effect.isNickEdit = 0 ∧
    (update_stats_task botName env s).2.countP Effect.isAvatarDownload = 0 ∧
    (update_stats_task botName env s).2.countP Effect.isAvatarUpload = 0 ∧
    (env.status = 429 →
      (update_stats_task botName env s).2 = [Effect.logWarning (rateLimitMsg botName)] ∧
      (update_stats_task botName env s).2.countP Effect.isWarningLog = 1) ∧
    (env.status ≠ 429 →
      (update_stats_task botName env s).2
          = [Effect.logError (apiFailedMsg botName env.status env.text)] ∧
      (update_stats_task botName env s).2.countP Effect.isErrorLog = 1 ∧
      (toString env.status).data <:+: (apiFailedMsg botName env.status env.text).data ∧
      env.text.data <:+: (apiFailedMsg botName env.status env.text).data) := by
  have hstat : (toString env.status).data
      <:+: (apiFailedMsg botName env.status env.text).data := by
    refine ⟨("[" ++ botName ++ "] API Failed: ").data, (" - " ++ env.text).data, ?_⟩
    simp [apiFailedMsg, String.data_append]
  have htext : env.text.data <:+: (apiFailedMsg botName env.status env.text).data := by
    refine ⟨("[" ++ botName ++ "] API Failed: " ++ toString env.status ++ " - ").data,
      [], ?_⟩
    simp [apiFailedMsg, String.data_append]
  by_cases h429 : env.status = 429 <;>
    simp_all [update_stats_task, Effect.isPresence, Effect.isNickEdit,
      Effect.isAvatarDownload, Effect.isAvatarUpload, Effect.isWarningLog,
      Effect.isErrorLog]

/-- The HTTP 500 "server error" environment of the end-to-end scenario. -/
def env500 : CycleEnv :=
  { status := 500, json := Json.null, text := "server error", guilds := [],
    presence_ok := true, presence_err := "",
    avatar_status := 200, avatar_decode_ok := true, avatar_decode_err := "",
    avatar_upload_ok := true, avatar_upload_err := "" }

/-- Closed witness for `C8_non_200_skips_cycle` at the HTTP 500
`"server error"` scenario. -/
theorem C8_non_200_skips_cycle_witness :
    (update_stats_task "BOT" env500 PollState.init).1 = PollState.init ∧
    (update_stats_task "BOT" env500 PollState.init).2.countP Effect.isPresence = 0 ∧
    (update_stats_task "BOT" env500 PollState.init).2.countP Effect.isNickEdit = 0 ∧
    (update_stats_task "BOT" env500 PollState.init).2.countP Effect.isAvatarDownload = 0 ∧
    (update_stats_task "BOT" env500 PollState.init).2.countP Effect.isAvatarUpload = 0 ∧
    (env500.status = 429 →
      (update_stats_task "BOT" env500 PollState.init).2
          = [Effect.logWarning (rateLimitMsg "BOT")] ∧
      (update_stats_task "BOT" env500 PollState.init).2.countP Effect.isWarningLog = 1) ∧
    (env500.status ≠ 429 →
      (update_stats_task "BOT" env500 PollState.init).2
          = [Effect.logError (apiFailedMsg "BOT" env500.status env500.text)] ∧
      (update_stats_task "BOT" env500 PollState.init).2.countP Effect.isErrorLog = 1 ∧
      (toString env500.status).data <:+: (apiFailedMsg "BOT" env500.status env500.text).data ∧
      env500.text.data <:+: (apiFailedMsg "BOT" env500.status env500.text).data) :=
  C8_non_200_skips_cycle "BOT" env500 PollState.init (by decide)

/-- C9: a `discord.Forbidden` on one guild is logged as a warning and
does not stop the pass: the trace continues with exactly the remaining
guilds' loop effects; and after the pass the cycle records the new
display name as last-known regardless of any per-guild outcome (the
guild list, including failing guilds, is arbitrary). -/
theorem C9_forbidden_isolation (botName : String) (g : Guild) (rest : List Guild)
    (new_nick : Json) (hf : g.edit_result = EditOutcome.forbidden)
    (hd : nickJson g.me_nick ≠ new_nick)
    (env : CycleEnv) (s : PollState) (raw : RawSnapshot) (st : String)
    (h200 : env.status = 200) (hraw : extractRaw env.json = some raw)
    (hst : formatStatus raw.rank_name raw.rank_div raw.rank_score = some st)
    (hp : env.presence_ok = true) :
    update_all_nicknames botName (g :: rest) new_nick
      = Effect.logInfo (nickUpdatingMsg botName new_nick)
        :: Effect.nickEdit g.name new_nick
        :: Effect.logWarning (forbiddenMsg botName g.name)
        :: nick_loop_effects botName new_nick rest ∧
    (update_stats_task botName env s).1.last_known_name = raw.player_name := by
  constructor
  · simp [update_all_nicknames, nick_loop_effects, nick_guild_effects, hd, hf]
  · rw [cycle_200 botName env s raw st h200 hraw hst hp]

/-- Closed witness for `C9_forbidden_isolation`: first guild forbidden,
second guild still attempted, and the name is recorded. -/
theorem C9_forbidden_isolation_witness :
    update_all_nicknames "BOT" [⟨"G1", none, .forbidden⟩, ⟨"G2", none, .ok⟩]
        (Json.str "Shroud")
      = Effect.logInfo (nickUpdatingMsg "BOT" (Json.str "Shroud"))
        :: Effect.nickEdit "G1" (Json.str "Shroud")
        :: Effect.logWarning (forbiddenMsg "BOT" "G1")
        :: nick_loop_effects "BOT" (Json.str "Shroud") [⟨"G2", none, .ok⟩] ∧
    (update_stats_task "BOT"
        (happyEnv docShroud [⟨"G1", none, .forbidden⟩, ⟨"G2", none, .ok⟩])
        PollState.init).1.last_known_name = Json.str "Shroud" :=
  C9_forbidden_isolation "BOT" ⟨"G1", none, .forbidden⟩ [⟨"G2", none, .ok⟩]
    (Json.str "Shroud") rfl (by decide)
    (happyEnv docShroud [⟨"G1", none, .forbidden⟩, ⟨"G2", none, .ok⟩]) PollState.init
    ⟨Json.str "Shroud", Json.num 15000, Json.str "Master", Json.num 1,
      Json.str "http://x/badge.png"⟩
    "Master 1 - 15,000 RP" rfl
    (by decide : extractRaw docShroud = some ⟨Json.str "Shroud", Json.num 15000,
      Json.str "Master", Json.num 1, Json.str "http://x/badge.png"⟩)
    (by decide) rfl

/-- C10: if `change_presence` raises, the catch-all ends the cycle:
the status text is not recorded, no nickname edit is attempted even
though the display name differs, no avatar download happens, and the
memory is exactly as before. -/
theorem C10_presence_failure_aborts (botName : String) (env : CycleEnv) (s : PollState)
    (raw : RawSnapshot) (st : String)
    (h200 : env.status = 200) (hraw : extractRaw env.json = some raw)
    (hst : formatStatus raw.rank_name raw.rank_div raw.rank_score = some st)
    (hch : Json.str st ≠ s.last_known_score) (hp : env.presence_ok = false)
    (_hname : raw.player_name ≠ s.last_known_name) :
    update_stats_task botName env s
      = (s, [Effect.presenceUpdate st,
             Effect.logError (mainLoopErrMsg botName env.presence_err)]) ∧
    (update_stats_task botName env s).2.countP Effect.isNickEdit = 0 ∧
    (update_stats_task botName env s).2.countP Effect.isAvatarDownload = 0 := by
  have habort : update_stats_task botName env s
      = (s, [Effect.presenceUpdate st,
             Effect.logError (mainLoopErrMsg botName env.presence_err)]) := by
    simp [update_stats_task, h200, hraw, hst, hch, hp]
  refine ⟨habort, ?_, ?_⟩ <;>
    rw [habort] <;>
    simp [Effect.isNickEdit, Effect.isAvatarDownload]

/-- Closed witness for `C10_presence_failure_aborts`: presence raises
on the first cycle of the end-to-end input; the memory stays empty and
neither nickname nor avatar is attempted. -/
theorem C10_presence_failure_aborts_witness :
    update_stats_task "BOT"
        { happyEnv docShroud [⟨"G1", none, .ok⟩] with
            presence_ok := false, presence_err := "boom" } PollState.init
      = (PollState.init,
         [Effect.presenceUpdate "Master 1 - 15,000 RP",
          Effect.logError (mainLoopErrMsg "BOT" "boom")]) ∧
    (update_stats_task "BOT"
        { happyEnv docShroud [⟨"G1", none, .ok⟩] with
            presence_ok := false, presence_err := "boom" } PollState.init).2.countP
        Effect.isNickEdit = 0 ∧
    (update_stats_task "BOT"
        { happyEnv docShroud [⟨"G1", none, .ok⟩] with
            presence_ok := false, presence_err := "boom" } PollState.init).2.countP
        Effect.isAvatarDownload = 0 :=
  C10_presence_failure_aborts "BOT"
    { happyEnv docShroud [⟨"G1", none, .ok⟩] with
        presence_ok := false, presence_err := "boom" } PollState.init
    ⟨Json.str "Shroud", Json.num 15000, Json.str "Master", Json.num 1,
      Json.str "http://x/badge.png"⟩
    "Master 1 - 15,000 RP" rfl
    (by decide : extractRaw docShroud = some ⟨Json.str "Shroud", Json.num 15000,
      Json.str "Master", Json.num 1, Json.str "http://x/badge.png"⟩)
    (by decide) (by decide) rfl (by decide)

/-- Loop invariant of `parse_go` on the success path: if every
well-formed entry's delay literal parses, the loop returns, adding one
config per well-formed token key and one warning per token key whose
companion UID is missing (or empty). -/
theorem parse_go_ok (env : List (String × String)) :
    ∀ (rest : List (String × String)) (cs : List PlayerConfig) (logs : List LogEvent),
    (∀ kv ∈ rest, has_uid env kv.1 = true → (pyInt (delay_str env kv.1)).isSome = true) →
    0 < cs.length + rest.countP (fun kv => has_uid env kv.1) →
    ∃ cs2 logs2, parse_go env rest cs logs = ParseResult.ok cs2 logs2 ∧
      cs2.length = cs.length + rest.countP (fun kv => has_uid env kv.1) ∧
      logs2.countP LogEvent.isWarning
        = logs.countP LogEvent.isWarning
          + rest.countP (fun kv => !(has_uid env kv.1)) := by
  intro rest
  induction rest with
  | nil =>
    intro cs logs _ hpos
    have hne : cs.isEmpty = false := by
      cases cs
      · simp at hpos
      · rfl
    exact ⟨cs, logs, by simp [parse_go, hne], by simp, by simp⟩
  | cons kv rest ih =>
    rcases kv with ⟨k, v⟩
    intro cs logs hdel hpos
    have hcons : ∀ p : (String × String) → Bool,
        ((k, v) :: rest).countP p = rest.countP p + (if p (k, v) then 1 else 0) :=
      fun p => List.countP_cons p (k, v) rest
    rcases hu : env.lookup ("PLAYER_UID_" ++ derived_name k) with _ | u
    · have hnu : has_uid env k = false := by simp [has_uid, hu]
      have step : parse_go env ((k, v) :: rest) cs logs
          = parse_go env rest cs (logs ++ [LogEvent.warning (missingUidMsg (derived_name k))]) := by
        simp [parse_go, hu]
      obtain ⟨cs2, logs2, h1, h2, h3⟩ :=
        ih cs (logs ++ [LogEvent.warning (missingUidMsg (derived_name k))])
          (fun kv hm => hdel kv (List.mem_cons_of_mem _ hm))
          (by rw [hcons] at hpos; simpa [hnu] using hpos)
      refine ⟨cs2, logs2, by rw [step, h1], ?_, ?_⟩
      · rw [h2, hcons]; simp [hnu]
      · rw [h3, hcons]
        simp [hnu, List.countP_append, List.countP_cons, LogEvent.isWarning]
        omega
    · by_cases hue : u = ""
      · have hnu : has_uid env k = false := by simp [has_uid, hu, hue]
        have step : parse_go env ((k, v) :: rest) cs logs
            = parse_go env rest cs
                (logs ++ [LogEvent.warning (missingUidMsg (derived_name k))]) := by
          simp [parse_go, hu, hue]
        obtain ⟨cs2, logs2, h1, h2, h3⟩ :=
          ih cs (logs ++ [LogEvent.warning (missingUidMsg (derived_name k))])
            (fun kv hm => hdel kv (List.mem_cons_of_mem _ hm))
            (by rw [hcons] at hpos; simpa [hnu] using hpos)
        refine ⟨cs2, logs2, by rw [step, h1], ?_, ?_⟩
        · rw [h2, hcons]; simp [hnu]
        · rw [h3, hcons]
          simp [hnu, List.countP_append, List.countP_cons, LogEvent.isWarning]
          omega
      · have hyu : has_uid env k = true := by simp [has_uid, hu, hue]
        obtain ⟨d, hd⟩ : ∃ d, pyInt (delay_str env k) = some d := by
          have := hdel (k, v) (List.mem_cons_self _ _) hyu
          exact Option.isSome_iff_exists.mp this
        have step : parse_go env ((k, v) :: rest) cs logs
            = parse_go env rest
                (cs ++ [⟨derived_name k, v, u, d⟩])
                (logs ++ [LogEvent.info (loadedMsg (derived_name k) u d)]) := by
          simp [parse_go, hu, hue, hd]
        obtain ⟨cs2, logs2, h1, h2, h3⟩ :=
          ih (cs ++ [⟨derived_name k, v, u, d⟩])
            (logs ++ [LogEvent.info (loadedMsg (derived_name k) u d)])
            (fun kv hm => hdel kv (List.mem_cons_of_mem _ hm))
            (by simp)
        refine ⟨cs2, logs2, by rw [step, h1], ?_, ?_⟩
        · rw [h2, hcons]; simp [hyu]; omega
        · rw [h3, hcons]
          simp [hyu, List.countP_append, List.countP_cons, LogEvent.isWarning]

/-- If some entry of the loop is well-formed but its delay literal does
not parse, `parse_go` raises the `int()` `ValueError`. -/
theorem parse_go_err (env : List (String × String)) :
    ∀ (rest : List (String × String)) (cs : List PlayerConfig) (logs : List LogEvent),
    (∃ kv ∈ rest, has_uid env kv.1 = true ∧ pyInt (delay_str env kv.1) = none) →
    ∃ d logs2, parse_go env rest cs logs = ParseResult.error (intErrMsg d) logs2 ∧
      pyInt d = none := by
  intro rest
  induction rest with
  | nil => rintro cs logs ⟨kv, hm, -⟩; simp at hm
  | cons kv rest ih =>
    rcases kv with ⟨k, v⟩
    rintro cs logs ⟨kw, hm, hw1, hw2⟩
    rcases hu : env.lookup ("PLAYER_UID_" ++ derived_name k) with _ | u
    · have hnu : has_uid env k = false := by simp [has_uid, hu]
      rcases List.mem_cons.mp hm with rfl | hm2
      · rw [hw1] at hnu; cases hnu
      · obtain ⟨d, logs2, h1, h2⟩ := ih cs
          (logs ++ [LogEvent.warning (missingUidMsg (derived_name k))]) ⟨kw, hm2, hw1, hw2⟩
        exact ⟨d, logs2, by simp [parse_go, hu]; exact h1, h2⟩
    · by_cases hue : u = ""
      · have hnu : has_uid env k = false := by simp [has_uid, hu, hue]
        rcases List.mem_cons.mp hm with rfl | hm2
        · rw [hw1] at hnu; cases hnu
        · obtain ⟨d, logs2, h1, h2⟩ := ih cs
            (logs ++ [LogEvent.warning (missingUidMsg (derived_name k))]) ⟨kw, hm2, hw1, hw2⟩
          exact ⟨d, logs2, by simp [parse_go, hu, hue]; exact h1, h2⟩
      · rcases hdi : pyInt (delay_str env k) with _ | d0
        · exact ⟨delay_str env k, logs, by simp [parse_go, hu, hue, hdi], hdi⟩
        · rcases List.mem_cons.mp hm with rfl | hm2
          · rw [hw2] at hdi; cases hdi
          · obtain ⟨d, logs2, h1, h2⟩ := ih (cs ++ [⟨derived_name k, v, u, d0⟩])
              (logs ++ [LogEvent.info (loadedMsg (derived_name k) u d0)]) ⟨kw, hm2, hw1, hw2⟩
            exact ⟨d, logs2, by simp [parse_go, hu, hue, hdi]; exact h1, h2⟩

/-- With no well-formed entry at all, the loop only skips, so the
final empty check raises the configuration error. -/
theorem parse_go_none (env : List (String × String)) :
    ∀ (rest : List (String × String)) (logs : List LogEvent),
    rest.countP (fun kv => has_uid env kv.1) = 0 →
    ∃ logs2, parse_go env rest [] logs = ParseResult.error noConfigRaiseMsg logs2 := by
  intro rest
  induction rest with
  | nil => intro logs _; exact ⟨logs ++ [LogEvent.fatal noConfigLogMsg], by simp [parse_go]⟩
  | cons kv rest ih =>
    rcases kv with ⟨k, v⟩
    intro logs hz
    rw [List.countP_cons] at hz
    rcases hu : env.lookup ("PLAYER_UID_" ++ derived_name k) with _ | u
    · obtain ⟨logs2, h1⟩ := ih (logs ++ [LogEvent.warning (missingUidMsg (derived_name k))])
        (by omega)
      exact ⟨logs2, by simp [parse_go, hu]; exact h1⟩
    · by_cases hue : u = ""
      · obtain ⟨logs2, h1⟩ := ih (logs ++ [LogEvent.warning (missingUidMsg (derived_name k))])
          (by omega)
        exact ⟨logs2, by simp [parse_go, hu, hue]; exact h1⟩
      · exfalso
        have hyu : has_uid env k = true := by simp [has_uid, hu, hue]
        simp [hyu] at hz

/-- C3: for every environment whose well-formed token keys' optional
delay literals parse, with N token keys having a companion (truthy)
`PLAYER_UID_` entry and M token keys without one, and N ≥ 1,
`parse_player_configs` returns exactly N `PlayerConfig` records and
logs exactly M skip-warnings. -/
theorem C3_config_loader_counts (env : List (String × String))
    (hdel : ∀ kv ∈ token_keys env, has_uid env kv.1 = true →
      (pyInt (delay_str env kv.1)).isSome = true)
    (hN : 0 < (token_keys env).countP (fun kv => has_uid env kv.1)) :
    ∃ cs logs, parse_player_configs env = ParseResult.ok cs logs ∧
      cs.length = (token_keys env).countP (fun kv => has_uid env kv.1) ∧
      logs.countP LogEvent.isWarning
        = (token_keys env).countP (fun kv => !(has_uid env kv.1)) := by
  obtain ⟨cs2, logs2, h1, h2, h3⟩ :=
    parse_go_ok env (token_keys env) [] [] hdel (by simpa using hN)
  exact ⟨cs2, logs2, h1, by simpa using h2, by simpa using h3⟩

/-- Closed witness for `C3_config_loader_counts`: one well-formed pair
and one token key with no companion UID (N = 1, M = 1). -/
theorem C3_config_loader_counts_witness :
    ∃ cs logs,
      parse_player_configs
          [("DISCORD_BOT_TOKEN_A", "tok"), ("PLAYER_UID_A", "uid123"),
           ("DISCORD_BOT_TOKEN_B", "tok2")]
        = ParseResult.ok cs logs ∧
      cs.length
        = (token_keys
            [("DISCORD_BOT_TOKEN_A", "tok"), ("PLAYER_UID_A", "uid123"),
             ("DISCORD_BOT_TOKEN_B", "tok2")]).countP
            (fun kv => has_uid
              [("DISCORD_BOT_TOKEN_A", "tok"), ("PLAYER_UID_A", "uid123"),
               ("DISCORD_BOT_TOKEN_B", "tok2")] kv.1) ∧
      logs.countP LogEvent.isWarning
        = (token_keys
            [("DISCORD_BOT_TOKEN_A", "tok"), ("PLAYER_UID_A", "uid123"),
             ("DISCORD_BOT_TOKEN_B", "tok2")]).countP
            (fun kv => !(has_uid
              [("DISCORD_BOT_TOKEN_A", "tok"), ("PLAYER_UID_A", "uid123"),
               ("DISCORD_BOT_TOKEN_B", "tok2")] kv.1)) :=
  C3_config_loader_counts
    [("DISCORD_BOT_TOKEN_A", "tok"), ("PLAYER_UID_A", "uid123"),
     ("DISCORD_BOT_TOKEN_B", "tok2")]
    (by decide) (by decide)

/-- C4 counterexample: with a present but unparsable
`STARTUP_DELAY_A = "abc"` for an otherwise well-formed player, the
loader raises the `int()` `ValueError` instead of completing (the
claim says it must complete, at worst with delay 0). -/
theorem C4_unparsable_delay_counterexample :
    parse_player_configs
        [("DISCORD_BOT_TOKEN_A", "tok"), ("PLAYER_UID_A", "uid123"),
         ("STARTUP_DELAY_A", "abc")]
      = ParseResult.error (intErrMsg "abc") [] := by
  decide

/-- C4 (amended): when the startup-delay key for a token key's suffix
is absent, the parsed delay is 0; but when the key is present and its
value is not a parsable integer for a well-formed player, the loader
raises the `int()` `ValueError` (startup terminates) rather than
falling back to 0. -/
theorem C4_delay_behavior (env : List (String × String)) (k v : String)
    (hk : (k, v) ∈ token_keys env) :
    (env.lookup ("STARTUP_DELAY_" ++ derived_name k) = none →
      pyInt (delay_str env k) = some 0) ∧
    (has_uid env k = true → pyInt (delay_str env k) = none →
      ∃ d logs, parse_player_configs env = ParseResult.error (intErrMsg d) logs ∧
        pyInt d = none) := by
  constructor
  · intro habs
    simp only [delay_str, habs, Option.getD_none]
    decide
  · intro h1 h2
    exact parse_go_err env (token_keys env) [] [] ⟨(k, v), hk, h1, h2⟩

/-- Closed witness for `C4_delay_behavior` at a concrete environment
with a missing delay key (first part) and, separately instantiable,
an unparsable one (covered by the counterexample input). -/
theorem C4_delay_behavior_witness :
    (List.lookup ("STARTUP_DELAY_" ++ derived_name "DISCORD_BOT_TOKEN_A")
        [("DISCORD_BOT_TOKEN_A", "tok"), ("PLAYER_UID_A", "uid123")] = none →
      pyInt (delay_str [("DISCORD_BOT_TOKEN_A", "tok"), ("PLAYER_UID_A", "uid123")]
        "DISCORD_BOT_TOKEN_A") = some 0) ∧
    (has_uid [("DISCORD_BOT_TOKEN_A", "tok"), ("PLAYER_UID_A", "uid123")]
        "DISCORD_BOT_TOKEN_A" = true →
      pyInt (delay_str [("DISCORD_BOT_TOKEN_A", "tok"), ("PLAYER_UID_A", "uid123")]
        "DISCORD_BOT_TOKEN_A") = none →
      ∃ d logs,
        parse_player_configs [("DISCORD_BOT_TOKEN_A", "tok"), ("PLAYER_UID_A", "uid123")]
          = ParseResult.error (intErrMsg d) logs ∧ pyInt d = none) :=
  C4_delay_behavior [("DISCORD_BOT_TOKEN_A", "tok"), ("PLAYER_UID_A", "uid123")]
    "DISCORD_BOT_TOKEN_A" "tok" (by decide)

/-- C5: with zero well-formed player records the loader raises the
fatal configuration error, so `main` terminates before creating the
shared HTTP session or starting any bot: zero `PlayerConfig` are
produced. -/
theorem C5_empty_config_fatal (env : List (String × String))
    (h : (token_keys env).countP (fun kv => has_uid env kv.1) = 0) :
    ∃ logs, parse_player_configs env = ParseResult.error noConfigRaiseMsg logs ∧
      main_startup env = Except.error noConfigRaiseMsg := by
  obtain ⟨logs2, heq⟩ := parse_go_none env (token_keys env) [] h
  refine ⟨logs2, heq, ?_⟩
  simp only [main_startup, parse_player_configs] at *
  rw [heq]

/-- Closed witness for `C5_empty_config_fatal` on an environment with
no token keys at all. -/
theorem C5_empty_config_fatal_witness :
    ∃ logs, parse_player_configs [("HOME", "/root")]
        = ParseResult.error noConfigRaiseMsg logs ∧
      main_startup [("HOME", "/root")] = Except.error noConfigRaiseMsg :=
  C5_empty_config_fatal [("HOME", "/root")] (by decide)

/-- Spec-side path lookup: follow a key path through nested objects;
`none` when any hop is missing or lands on a non-object before the
path ends. -/
def jpath : Json → List String → Option Json
  | j, [] => some j
  | Json.obj fs, k :: ks =>
    (match fs.lookup k with
     | some v => jpath v ks
     | none => none)
  | _, _ => none

/-- Path lookup with a default for a missing path. -/
def jpathD (doc : Json) (p : List String) (d : Json) : Json :=
  (jpath doc p).getD d

/-- The documents on which the chained `.get` calls of lines 73-80
cannot raise: the document is an object, its `global` member (when
present) is an object, and `global.rank` (when present) is an object. -/
def wellShaped : Json → Bool
  | Json.obj fs =>
    (match fs.lookup "global" with
     | none => true
     | some (Json.obj gfs) =>
       (match gfs.lookup "rank" with
        | none => true
        | some (Json.obj _) => true
        | some _ => false)
     | some _ => false)
  | _ => false

/-- The identity match produced by a one-hop `jpath` ending right
after a lookup. -/
theorem option_some_match (o : Option Json) :
    (match o with | some v => some v | none => none) = o := by
  cases o <;> rfl

/-- C2 counterexample: on the HTTP 200 document `{"global": 5}` the
extraction is not total — `global_info.get('rank', {})` raises
`AttributeError`, so no snapshot (and no defaults) is produced; the
cycle only logs the exception. -/
theorem C2_not_total_counterexample :
    extractRaw (Json.obj (.cons "global" (Json.num 5) .nil)) = none ∧
    (update_stats_task "BOT"
        (happyEnv (Json.obj (.cons "global" (Json.num 5) .nil)) []) PollState.init).2
      = [Effect.logError (mainLoopErrMsg "BOT" attrErrText)] ∧
    (update_stats_task "BOT"
        (happyEnv (Json.obj (.cons "global" (Json.num 5) .nil)) []) PollState.init).1
      = PollState.init := by
  decide

/-- C2 (amended): on every *well-shaped* document (top level an
object, `global` and `global.rank` objects when present) the
extraction is total and equals path lookup with the defaults
`"Unknown"`, `0`, `"Rookie"`, `0` and `None` (no badge URL) for the
five paths. -/
theorem C2_extraction_defaults (doc : Json) (h : wellShaped doc = true) :
    extractRaw doc = some
      ⟨jpathD doc ["global", "name"] (Json.str "Unknown"),
       jpathD doc ["global", "rank", "rankScore"] (Json.num 0),
       jpathD doc ["global", "rank", "rankName"] (Json.str "Rookie"),
       jpathD doc ["global", "rank", "rankDiv"] (Json.num 0),
       jpathD doc ["global", "rank", "rankImg"] Json.null⟩ := by
  rcases doc with _ | s | n | fs <;> simp [wellShaped] at h
  rcases hg : fs.lookup "global" with _ | gv
  · simp [extractRaw, pyDictGet, hg, jpathD, jpath, JFields.lookup]
  · rcases gv with _ | s | n | gfs
    · simp [wellShaped, hg] at h
    · simp [wellShaped, hg] at h
    · simp [wellShaped, hg] at h
    · rcases hr : gfs.lookup "rank" with _ | rv
      · simp [extractRaw, pyDictGet, hg, hr, jpathD, jpath, JFields.lookup,
          option_some_match]
      · rcases rv with _ | s | n | rfs
        · simp [wellShaped, hg, hr] at h
        · simp [wellShaped, hg, hr] at h
        · simp [wellShaped, hg, hr] at h
        · simp [extractRaw, pyDictGet, hg, hr, jpathD, jpath, JFields.lookup,
            option_some_match]

/-- Closed witness for `C2_extraction_defaults` on a well-shaped
document missing every field: all five defaults appear. -/
theorem C2_extraction_defaults_witness :
    extractRaw (Json.obj (.cons "global" (Json.obj .nil) .nil)) = some
      ⟨jpathD (Json.obj (.cons "global" (Json.obj .nil) .nil))
          ["global", "name"] (Json.str "Unknown"),
       jpathD (Json.obj (.cons "global" (Json.obj .nil) .nil))
          ["global", "rank", "rankScore"] (Json.num 0),
       jpathD (Json.obj (.cons "global" (Json.obj .nil) .nil))
          ["global", "rank", "rankName"] (Json.str "Rookie"),
       jpathD (Json.obj (.cons "global" (Json.obj .nil) .nil))
          ["global", "rank", "rankDiv"] (Json.num 0),
       jpathD (Json.obj (.cons "global" (Json.obj .nil) .nil))
          ["global", "rank", "rankImg"] Json.null⟩ :=
  C2_extraction_defaults (Json.obj (.cons "global" (Json.obj .nil) .nil)) (by decide)

end Apex
